import Mathlib

/-!
Verification development for the UPnP IGD control-protocol client
(`src/gateway.rs` of rust-igd).

The code is shallow-embedded:

* XML elements (the `xmltree::Element` values the code navigates) are the
  inductive `Element`; the external `xmltree::Element::parse` step is an
  oracle input of type `Option Element` accompanying the raw response text.
* The HTTP transport (`soap::send` / `soap::send_async`) is an oracle
  `Oracle`, mapping the index of the transport invocation together with the
  url, SOAP-Action header and envelope body to either a transport-error
  message or the raw response text with its XML parse.  Operations return
  their result paired with the number of transport invocations performed.
* The random source used to draw candidate external ports
  (`rand::distributions::Range::new(32768u16, 65535u16).ind_sample`) is an
  injected sequence `rng : Nat → Nat`; `portDraw` reduces a raw draw into
  the half-open range [32768, 65535) exactly as the sampled distribution
  guarantees.
* Machine integers (`u16` ports, `u32` lease durations) are `Nat`.
-/

/-- IPv4 address, four octets (`std::net::Ipv4Addr`). -/
structure Ipv4 where
  o1 : Nat
  o2 : Nat
  o3 : Nat
  o4 : Nat
deriving DecidableEq, Repr

/-- `std::net::SocketAddrV4`: an IPv4 host plus a port. -/
structure SocketAddrV4 where
  ip : Ipv4
  port : Nat
deriving DecidableEq, Repr

/-- The protocols available for port mapping (`PortMappingProtocol`). -/
inductive PortMappingProtocol where
  | TCP
  | UDP
deriving DecidableEq, Repr

/-- `Display` for `PortMappingProtocol`: the literal strings of the wire contract. -/
def protocolStr : PortMappingProtocol → String
  | .TCP => "TCP"
  | .UDP => "UDP"

/-- Decimal rendering of a `Nat`, as Rust's `Display` for integers. -/
def natStr (n : Nat) : String := toString n

/-- `Display` for `Ipv4Addr`: dotted decimal. -/
def ipv4Str (a : Ipv4) : String :=
  natStr a.o1 ++ "." ++ natStr a.o2 ++ "." ++ natStr a.o3 ++ "." ++ natStr a.o4

/-- `Display` for `SocketAddrV4`: `ip:port`. -/
def socketAddrStr (a : SocketAddrV4) : String :=
  ipv4Str a.ip ++ ":" ++ natStr a.port

/-- A gateway found by the search functions: socket address plus control url. -/
structure Gateway where
  addr : SocketAddrV4
  control_url : String
deriving DecidableEq, Repr

/-- `Display` for `Gateway`: `http://{addr}{control_url}`. -/
def gatewayUrl (g : Gateway) : String :=
  "http://" ++ socketAddrStr g.addr ++ g.control_url

/-- An XML element as navigated by the code via `xmltree`: a (local) name,
an optional text payload, and child elements. -/
inductive Element where
  | mk (name : String) (text : Option String) (children : List Element)

/-- The element's local name. -/
def Element.name : Element → String
  | .mk n _ _ => n

/-- The element's text payload (`Element.text` in xmltree). -/
def Element.text : Element → Option String
  | .mk _ t _ => t

/-- The element's children. -/
def Element.children : Element → List Element
  | .mk _ _ c => c

/-- `xmltree`'s `get_child` / `get_mut_child`: the first child with the given
local name, if any.  `take_child` returns the same element (the removal from
the tree is irrelevant here: the code returns immediately afterwards). -/
def Element.getChild (e : Element) (n : String) : Option Element :=
  e.children.find? (fun c => c.name == n)

/-- Value of a list of decimal digit characters. -/
def digitsToNat (cs : List Char) : Nat :=
  cs.foldl (fun acc c => acc * 10 + (c.toNat - 48)) 0

/-- Parse a non-empty all-digit character list as a `Nat`. -/
def parseNatStrict (cs : List Char) : Option Nat :=
  if cs.isEmpty then none
  else if cs.all Char.isDigit then some (digitsToNat cs)
  else none

/-- Rust's `str::parse::<u16>`: an optional leading `+` sign, then a
non-empty digit string whose value fits in 16 bits. -/
def parseU16 (s : String) : Option Nat :=
  let cs := match s.data with
    | [] => ([] : List Char)
    | c :: rest => if c = '+' then rest else c :: rest
  match parseNatStrict cs with
  | some n => if n ≤ 65535 then some n else none
  | none => none

/-- Split a character list on `.` separators (empty groups preserved). -/
def splitOnDot : List Char → List (List Char)
  | [] => [[]]
  | c :: rest =>
    if c = '.' then [] :: splitOnDot rest
    else
      match splitOnDot rest with
      | [] => [[c]]
      | g :: gs => (c :: g) :: gs

/-- One dotted-decimal octet: non-empty, all digits, value at most 255. -/
def parseOctet (cs : List Char) : Option Nat :=
  match parseNatStrict cs with
  | some n => if n ≤ 255 then some n else none
  | none => none

/-- Rust's `str::parse::<Ipv4Addr>`: exactly four dotted-decimal octets. -/
def parseIpv4 (s : String) : Option Ipv4 :=
  match (splitOnDot s.data).mapM parseOctet with
  | some [a, b, c, d] => some ⟨a, b, c, d⟩
  | _ => none

/-- The shared request-level error type (`errors::RequestError`).  The
`ErrorCode` and `InvalidResponse` variants are exactly those constructed in
`gateway.rs`; the transport-layer failures (connection/DNS/HTTP errors
converted via `From`) are collapsed into the single `TransportError`
variant, per the spec's taxonomy of transport failure as one category
distinct from protocol faults. -/
inductive RequestError where
  | ErrorCode (code : Nat) (description : String)
  | InvalidResponse (text : String)
  | TransportError (message : String)
deriving DecidableEq, Repr

/-- `errors::GetExternalIpError`, as constructed in `gateway.rs`. -/
inductive GetExternalIpError where
  | ActionNotAuthorized
  | RequestError (e : RequestError)
deriving DecidableEq, Repr

/-- `errors::AddPortError`, as constructed in `gateway.rs`. -/
inductive AddPortError where
  | ExternalPortZeroInvalid
  | InternalPortZeroInvalid
  | DescriptionTooLong
  | ActionNotAuthorized
  | PortInUse
  | SamePortValuesRequired
  | OnlyPermanentLeasesSupported
  | RequestError (e : RequestError)
deriving DecidableEq, Repr

/-- `errors::AddAnyPortError`, as constructed in `gateway.rs`. -/
inductive AddAnyPortError where
  | InternalPortZeroInvalid
  | ActionNotAuthorized
  | ExternalPortInUse
  | DescriptionTooLong
  | OnlyPermanentLeasesSupported
  | NoPortsAvailable
  | RequestError (e : RequestError)
deriving DecidableEq, Repr

/-- `errors::RemovePortError`, as constructed in `gateway.rs`. -/
inductive RemovePortError where
  | ActionNotAuthorized
  | NoSuchPortMapping
  | RequestError (e : RequestError)
deriving DecidableEq, Repr

/-- `parse_response(text, ok)` from `gateway.rs`, with the external
`xmltree::Element::parse(text.as_bytes())` step supplied as the oracle
argument `parsed` (`none` = the text is not parseable as XML).  Navigation
(`Body` lookup, `take_child(ok)`, the `Fault/detail/UPnPError` path, the
`errorCode`/`errorDescription` children and the `u16` parse of the code)
is embedded verbatim. -/
def parse_response (text : String) (parsed : Option Element) (ok : String) :
    Except RequestError (String × Element) :=
  match parsed with
  | none => .error (.InvalidResponse text)
  | some xml =>
    match xml.getChild "Body" with
    | none => .error (.InvalidResponse text)
    | some body =>
      match body.getChild ok with
      | some okElem => .ok (text, okElem)
      | none =>
        match ((body.getChild "Fault").bind
            (fun e => e.getChild "detail")).bind
            (fun e => e.getChild "UPnPError") with
        | none => .error (.InvalidResponse text)
        | some upnp_error =>
          match upnp_error.getChild "errorCode",
              upnp_error.getChild "errorDescription" with
          | some e, some d =>
            match e.text, d.text with
            | some et, some dt =>
              match parseU16 et with
              | some en => .error (.ErrorCode en dt)
              | none => .error (.InvalidResponse text)
            | _, _ => .error (.InvalidResponse text)
          | _, _ => .error (.InvalidResponse text)

/-- Outcome of one HTTP exchange: a transport-error message, or the raw
response text together with its XML parse (the parse being the external
`xmltree` library, modelled as part of the oracle). -/
abbrev SoapResult := Except String (String × Option Element)

/-- The transport (`soap::send` / `soap::send_async`), modelled as an
oracle: the index of the transport invocation plus the url, SOAP-Action
header and envelope body determine the exchange's outcome. -/
abbrev Oracle := Nat → String → String → String → SoapResult

/-- The oracle seen by a callee whose transport invocations start after
`n` invocations already performed by the caller. -/
def shiftOracle (o : Oracle) (n : Nat) : Oracle :=
  fun k url header body => o (n + k) url header body

/-- `rand::distributions::Range::new(32768u16, 65535u16).ind_sample(..)`:
a draw from the injected random sequence reduced into the half-open
range [32768, 65535). -/
def portDraw (n : Nat) : Nat := 32768 + n % 32767

/-- `Gateway::perform_request`: send the envelope over the transport, then
run `parse_response` on the response text, converting a transport failure
into a `RequestError`. -/
def perform_request (o : Oracle) (k : Nat) (url header body ok : String) :
    Except RequestError (String × Element) :=
  match o k url header body with
  | .error e => .error (.TransportError e)
  | .ok (text, parsed) => parse_response text parsed ok

/-- SOAP-Action header for `GetExternalIPAddress`. -/
def getExternalIpHeader : String :=
  "\"urn:schemas-upnp-org:service:WANIPConnection:1#GetExternalIPAddress\""

/-- The fixed `GetExternalIPAddress` envelope body literal. -/
def getExternalIpBody : String :=
  "<?xml version=\"1.0\"?>\n        <SOAP-ENV:Envelope SOAP-ENV:encodingStyle=\"http://schemas.xmlsoap.org/soap/encoding/\" xmlns:SOAP-ENV=\"http://schemas.xmlsoap.org/soap/envelope/\">\n            <SOAP-ENV:Body>\n                <m:GetExternalIPAddress xmlns:m=\"urn:schemas-upnp-org:service:WANIPConnection:1\">\n                </m:GetExternalIPAddress>\n            </SOAP-ENV:Body>\n        </SOAP-ENV:Envelope>"

/-- SOAP-Action header for `AddAnyPortMapping`. -/
def addAnyPortMappingHeader : String :=
  "\"urn:schemas-upnp-org:service:WANIPConnection:1#AddAnyPortMapping\""

/-- SOAP-Action header for `AddPortMapping`. -/
def addPortMappingHeader : String :=
  "\"urn:schemas-upnp-org:service:WANIPConnection:1#AddPortMapping\""

/-- SOAP-Action header for `DeletePortMapping`. -/
def deletePortMappingHeader : String :=
  "\"urn:schemas-upnp-org:service:WANIPConnection:1#DeletePortMapping\""

/-- The `AddAnyPortMapping` envelope body: the `format!` call of
`add_any_port`, literal fragments interleaved with the rendered arguments
(protocol, external port, internal client ip, internal port, lease
duration, description) exactly as `format!` interpolates them.  Note the
description is interpolated verbatim. -/
def add_any_port_mapping_body (protocol : PortMappingProtocol)
    (external_port : Nat) (local_addr : SocketAddrV4)
    (lease_duration : Nat) (description : String) : String :=
  "<?xml version=\"1.0\"?>\n        <s:Envelope xmlns:s=\"http://schemas.xmlsoap.org/soap/envelope/\" s:encodingStyle=\"http://schemas.xmlsoap.org/soap/encoding/\">\n        <s:Body>\n            <u:AddAnyPortMapping xmlns:u=\"urn:schemas-upnp-org:service:WANIPConnection:1\">\n                <NewProtocol>"
  ++ protocolStr protocol
  ++ "</NewProtocol>\n                <NewExternalPort>"
  ++ natStr external_port
  ++ "</NewExternalPort>\n                <NewInternalClient>"
  ++ ipv4Str local_addr.ip
  ++ "</NewInternalClient>\n                <NewInternalPort>"
  ++ natStr local_addr.port
  ++ "</NewInternalPort>\n                <NewLeaseDuration>"
  ++ natStr lease_duration
  ++ "</NewLeaseDuration>\n                <NewPortMappingDescription>"
  ++ description
  ++ "</NewPortMappingDescription>\n                <NewEnabled>1</NewEnabled>\n                <NewRemoteHost></NewRemoteHost>\n            </u:AddAnyPortMapping>\n        </s:Body>\n        </s:Envelope>\n        "

/-- The `AddPortMapping` envelope body: the `format!` call of
`add_port_mapping`, same field order and literal fragments, with the
description again interpolated verbatim. -/
def add_port_mapping_body (protocol : PortMappingProtocol)
    (external_port : Nat) (local_addr : SocketAddrV4)
    (lease_duration : Nat) (description : String) : String :=
  "<?xml version=\"1.0\"?>\n        <s:Envelope xmlns:s=\"http://schemas.xmlsoap.org/soap/envelope/\" s:encodingStyle=\"http://schemas.xmlsoap.org/soap/encoding/\">\n        <s:Body>\n            <u:AddPortMapping xmlns:u=\"urn:schemas-upnp-org:service:WANIPConnection:1\">\n                <NewProtocol>"
  ++ protocolStr protocol
  ++ "</NewProtocol>\n                <NewExternalPort>"
  ++ natStr external_port
  ++ "</NewExternalPort>\n                <NewInternalClient>"
  ++ ipv4Str local_addr.ip
  ++ "</NewInternalClient>\n                <NewInternalPort>"
  ++ natStr local_addr.port
  ++ "</NewInternalPort>\n                <NewLeaseDuration>"
  ++ natStr lease_duration
  ++ "</NewLeaseDuration>\n                <NewPortMappingDescription>"
  ++ description
  ++ "</NewPortMappingDescription>\n                <NewEnabled>1</NewEnabled>\n                <NewRemoteHost></NewRemoteHost>\n            </u:AddPortMapping>\n        </s:Body>\n        </s:Envelope>\n        "

/-- The `DeletePortMapping` envelope body of `remove_port`. -/
def delete_port_mapping_body (protocol : PortMappingProtocol)
    (external_port : Nat) : String :=
  "<?xml version=\"1.0\"?>\n        <s:Envelope xmlns:s=\"http://schemas.xmlsoap.org/soap/envelope/\" s:encodingStyle=\"http://schemas.xmlsoap.org/soap/encoding/\">\n        <s:Body>\n            <u:DeletePortMapping xmlns:u=\"urn:schemas-upnp-org:service:WANIPConnection:1\">\n                <NewProtocol>"
  ++ protocolStr protocol
  ++ "</NewProtocol>\n                <NewExternalPort>"
  ++ natStr external_port
  ++ "</NewExternalPort>\n                <NewRemoteHost></NewRemoteHost>\n            </u:DeletePortMapping>\n        </s:Body>\n        </s:Envelope>\n        "

/-- `Gateway::get_external_ip_async`: one `perform_request` with the fixed
`GetExternalIPAddress` envelope, then the classification of the result.
Returned together with the number of transport invocations (always 1). -/
def get_external_ip_async (o : Oracle) (g : Gateway) :
    Except GetExternalIpError Ipv4 × Nat :=
  match perform_request o 0 (gatewayUrl g) getExternalIpHeader
      getExternalIpBody "GetExternalIPAddressResponse" with
  | .ok (text, response) =>
    match ((response.getChild "NewExternalIPAddress").bind
        (fun e => e.text)).bind (fun t => parseIpv4 t) with
    | some ipv4_addr => (.ok ipv4_addr, 1)
    | none => (.error (.RequestError (.InvalidResponse text)), 1)
  | .error (.ErrorCode 606 _) => (.error .ActionNotAuthorized, 1)
  | .error e => (.error (.RequestError e), 1)

/-- `Gateway::get_external_ip`: the blocking variant drives the async
variant to completion on a private event loop; the protocol logic is the
same function. -/
def get_external_ip (o : Oracle) (g : Gateway) :
    Except GetExternalIpError Ipv4 × Nat :=
  get_external_ip_async o g

/-- `Gateway::add_port_mapping`: one `perform_request` with the
`AddPortMapping` envelope at transport index `k`; the parsed success
element is discarded. -/
def add_port_mapping (o : Oracle) (k : Nat) (g : Gateway)
    (protocol : PortMappingProtocol) (external_port : Nat)
    (local_addr : SocketAddrV4) (lease_duration : Nat)
    (description : String) : Except RequestError Unit :=
  match perform_request o k (gatewayUrl g) addPortMappingHeader
      (add_port_mapping_body protocol external_port local_addr
        lease_duration description)
      "AddPortMappingResponse" with
  | .ok _ => .ok ()
  | .error e => .error e

/-- `Gateway::add_port`: local zero-port validation, then one
`add_port_mapping` whose fault code is classified by the fixed table. -/
def add_port (o : Oracle) (g : Gateway) (protocol : PortMappingProtocol)
    (external_port : Nat) (local_addr : SocketAddrV4)
    (lease_duration : Nat) (description : String) :
    Except AddPortError Unit × Nat :=
  if external_port = 0 then (.error .ExternalPortZeroInvalid, 0)
  else if local_addr.port = 0 then (.error .InternalPortZeroInvalid, 0)
  else
    match add_port_mapping o 0 g protocol external_port local_addr
        lease_duration description with
    | .ok () => (.ok (), 1)
    | .error (.ErrorCode 605 _) => (.error .DescriptionTooLong, 1)
    | .error (.ErrorCode 606 _) => (.error .ActionNotAuthorized, 1)
    | .error (.ErrorCode 718 _) => (.error .PortInUse, 1)
    | .error (.ErrorCode 724 _) => (.error .SamePortValuesRequired, 1)
    | .error (.ErrorCode 725 _) => (.error .OnlyPermanentLeasesSupported, 1)
    | .error e => (.error (.RequestError e), 1)

/-- The `for _attempt in 0..20` fallback loop of `Gateway::add_any_port`:
`fuel` is the number of remaining attempts and `k` both the index of the
next transport invocation and of the next random draw (the initial
`AddAnyPortMapping` call consumed index 0, so the loop starts at `k = 1`).
Each attempt draws a fresh candidate port and issues a fixed-port
`add_port_mapping`; fault 724 triggers the single same-port sub-attempt at
index `k + 1` with no further draw, and every outcome other than fault 718
leaves the loop.  The second component is the total number of transport
invocations performed, `k` ones having already happened. -/
def addAnyPortLoop (o : Oracle) (rng : Nat → Nat) (g : Gateway)
    (protocol : PortMappingProtocol) (local_addr : SocketAddrV4)
    (lease_duration : Nat) (description : String) :
    Nat → Nat → Except AddAnyPortError Nat × Nat
  | 0, k => (.error .NoPortsAvailable, k)
  | fuel + 1, k =>
    let external_port := portDraw (rng k)
    match add_port_mapping o k g protocol external_port local_addr
        lease_duration description with
    | .ok () => (.ok external_port, k + 1)
    | .error (.ErrorCode 605 _) => (.error .DescriptionTooLong, k + 1)
    | .error (.ErrorCode 606 _) => (.error .ActionNotAuthorized, k + 1)
    | .error (.ErrorCode 718 _) =>
      addAnyPortLoop o rng g protocol local_addr lease_duration description
        fuel (k + 1)
    | .error (.ErrorCode 724 _) =>
      (match add_port_mapping o (k + 1) g protocol local_addr.port
          local_addr lease_duration description with
      | .ok () => (.ok local_addr.port, k + 2)
      | .error (.ErrorCode 606 _) => (.error .ActionNotAuthorized, k + 2)
      | .error (.ErrorCode 718 _) => (.error .ExternalPortInUse, k + 2)
      | .error (.ErrorCode 725 _) =>
        (.error .OnlyPermanentLeasesSupported, k + 2)
      | .error e => (.error (.RequestError e), k + 2))
    | .error (.ErrorCode 725 _) =>
      (.error .OnlyPermanentLeasesSupported, k + 1)
    | .error e => (.error (.RequestError e), k + 1)

/-- `Gateway::add_any_port`: zero-internal-port validation, a first
`AddAnyPortMapping` attempt with a random candidate port, classification
of its outcome, and on fault 401 the 20-attempt fixed-port fallback loop. -/
def add_any_port (o : Oracle) (rng : Nat → Nat) (g : Gateway)
    (protocol : PortMappingProtocol) (local_addr : SocketAddrV4)
    (lease_duration : Nat) (description : String) :
    Except AddAnyPortError Nat × Nat :=
  if local_addr.port = 0 then (.error .InternalPortZeroInvalid, 0)
  else
    let external_port := portDraw (rng 0)
    match perform_request o 0 (gatewayUrl g) addAnyPortMappingHeader
        (add_any_port_mapping_body protocol external_port local_addr
          lease_duration description)
        "AddAnyPortMappingResponse" with
    | .ok (text, response) =>
      match ((response.getChild "NewReservedPort").bind
          (fun e => e.text)).bind (fun t => parseU16 t) with
      | some port => (.ok port, 1)
      | none => (.error (.RequestError (.InvalidResponse text)), 1)
    | .error (.ErrorCode 401 _) =>
      addAnyPortLoop o rng g protocol local_addr lease_duration description
        20 1
    | .error (.ErrorCode 605 _) => (.error .DescriptionTooLong, 1)
    | .error (.ErrorCode 606 _) => (.error .ActionNotAuthorized, 1)
    | .error (.ErrorCode 728 _) => (.error .NoPortsAvailable, 1)
    | .error e => (.error (.RequestError e), 1)

/-- `Gateway::get_any_address`: `get_external_ip` (transport index 0),
then on success `add_any_port` over the shifted oracle; the two successes
combine into one socket address. -/
def get_any_address (o : Oracle) (rng : Nat → Nat) (g : Gateway)
    (protocol : PortMappingProtocol) (local_addr : SocketAddrV4)
    (lease_duration : Nat) (description : String) :
    Except AddAnyPortError SocketAddrV4 × Nat :=
  match get_external_ip o g with
  | (.error .ActionNotAuthorized, n) => (.error .ActionNotAuthorized, n)
  | (.error (.RequestError e), n) => (.error (.RequestError e), n)
  | (.ok external_ip, n) =>
    match add_any_port (shiftOracle o n) rng g protocol local_addr
        lease_duration description with
    | (.ok external_port, m) => (.ok ⟨external_ip, external_port⟩, n + m)
    | (.error e, m) => (.error e, n + m)

/-- `Gateway::remove_port`: one `perform_request` with the
`DeletePortMapping` envelope; any parsed success element is accepted and
faults 606/714 are reclassified. -/
def remove_port (o : Oracle) (g : Gateway)
    (protocol : PortMappingProtocol) (external_port : Nat) :
    Except RemovePortError Unit × Nat :=
  match perform_request o 0 (gatewayUrl g) deletePortMappingHeader
      (delete_port_mapping_body protocol external_port)
      "DeletePortMappingResponse" with
  | .ok _ => (.ok (), 1)
  | .error (.ErrorCode 606 _) => (.error .ActionNotAuthorized, 1)
  | .error (.ErrorCode 714 _) => (.error .NoSuchPortMapping, 1)
  | .error e => (.error (.RequestError e), 1)

/-- Modelled from the spec, for the refinement claim about the response
parser: steps 1–6 of the spec's Response Parser algorithm, written from
the spec's words (parse failure, missing `Body`, success-before-fault,
the `Body/Fault/detail/UPnPError` path, both `errorCode` — parseable as an
unsigned 16-bit integer — and `errorDescription` text children required,
every structural anomaly degrading to `InvalidResponse` with the original
text). -/
def parse_response_spec_model (text : String) (parsed : Option Element)
    (ok : String) : Except RequestError (String × Element) :=
  match parsed with
  | none => .error (.InvalidResponse text)
  | some xml =>
    match xml.getChild "Body" with
    | none => .error (.InvalidResponse text)
    | some body =>
      match body.getChild ok with
      | some success => .ok (text, success)
      | none =>
        match ((body.getChild "Fault").bind
            (fun e => e.getChild "detail")).bind
            (fun e => e.getChild "UPnPError") with
        | none => .error (.InvalidResponse text)
        | some upnpError =>
          match (upnpError.getChild "errorCode").bind Element.text,
              (upnpError.getChild "errorDescription").bind Element.text with
          | some codeText, some descText =>
            match parseU16 codeText with
            | some code => .error (.ErrorCode code descText)
            | none => .error (.InvalidResponse text)
          | _, _ => .error (.InvalidResponse text)

/-- Modelled from the spec: the XML escaping the envelope-builder layer is
claimed to apply to parameter values (the five XML special characters). -/
def xmlEscapeChar (c : Char) : String :=
  if c = '&' then "&amp;"
  else if c = '<' then "&lt;"
  else if c = '>' then "&gt;"
  else if c = '"' then "&quot;"
  else if c = Char.ofNat 39 then "&apos;"
  else String.mk [c]

/-- Modelled from the spec: escape a whole string for embedding in XML. -/
def xmlEscape (s : String) : String :=
  s.data.foldl (fun acc c => acc ++ xmlEscapeChar c) ""

/-- Whether a string contains any character needing XML escaping. -/
def needsXmlEscape (s : String) : Bool :=
  s.data.any (fun c => xmlEscapeChar c != String.mk [c])

/-- The `AddPortMapping` envelope builder as the spec describes it: the
description escaped before interpolation. -/
def add_port_mapping_body_escaped (protocol : PortMappingProtocol)
    (external_port : Nat) (local_addr : SocketAddrV4)
    (lease_duration : Nat) (description : String) : String :=
  add_port_mapping_body protocol external_port local_addr lease_duration
    (xmlEscape description)

/-- One fixed-port fallback attempt of `add_any_port`'s loop: the `k`-th
transport invocation, with the `k`-th random draw as candidate external
port. -/
def fallbackAttempt (o : Oracle) (rng : Nat → Nat) (g : Gateway)
    (protocol : PortMappingProtocol) (local_addr : SocketAddrV4)
    (lease_duration : Nat) (description : String) (k : Nat) :
    Except RequestError Unit :=
  add_port_mapping o k g protocol (portDraw (rng k)) local_addr
    lease_duration description

/-- Test fixture: a wire-compliant UPnP fault document. -/
def faultXml (code : Nat) (desc : String) : Element :=
  .mk "Envelope" none [.mk "Body" none [.mk "Fault" none [.mk "detail" none
    [.mk "UPnPError" none [.mk "errorCode" (some (natStr code)) [],
      .mk "errorDescription" (some desc) []]]]]]

/-- Test fixture: a successful exchange whose response is a fault body. -/
def faultResp (code : Nat) (desc : String) : SoapResult :=
  .ok ("fault-text", some (faultXml code desc))

/-- Test fixture: a success document with the given success element. -/
def okRespXml (okName : String) (children : List Element) : Element :=
  .mk "Envelope" none [.mk "Body" none [.mk okName none children]]

/-- Test fixture: a successful exchange carrying a success element. -/
def okResp (okName : String) (children : List Element) : SoapResult :=
  .ok ("ok-text", some (okRespXml okName children))

/-- Test fixture: a gateway. -/
def gEx : Gateway := ⟨⟨⟨192, 168, 0, 1⟩, 1900⟩, "/ctl"⟩

/-- Test fixture: an internal socket address with a non-zero port. -/
def laEx : SocketAddrV4 := ⟨⟨10, 0, 0, 2⟩, 1000⟩

/-- Test fixture: an internal socket address with port zero. -/
def laZeroEx : SocketAddrV4 := ⟨⟨10, 0, 0, 2⟩, 0⟩

/-- Test fixture: a deterministic injected random sequence. -/
def rngEx : Nat → Nat := fun n => n

/-- Test fixture: a transport that always fails (stub asserting no
meaningful network activity). -/
def oracleNever : Oracle := fun _ _ _ _ => .error "no network"

/-- Test fixture: a router answering every exchange with the given fault. -/
def oracleFault (code : Nat) : Oracle := fun _ _ _ _ => faultResp code "err"

/-- Test fixture: a router without `AddAnyPortMapping` (fault 401) whose
every fixed-port attempt conflicts (fault 718). -/
def oracle401then718 : Oracle := fun k _ _ _ =>
  if k = 0 then faultResp 401 "unknown action" else faultResp 718 "conflict"

/-- Test fixture: a router without `AddAnyPortMapping` that requires equal
internal and external ports (fault 724 on the first fixed-port attempt)
and accepts the same-port retry. -/
def oracle401then724ok : Oracle := fun k _ _ _ =>
  if k = 0 then faultResp 401 "unknown action"
  else if k = 1 then faultResp 724 "same port required"
  else okResp "AddPortMappingResponse" []

/-- Test fixture: a router granting `AddAnyPortMapping` with reserved
port 12345. -/
def oracleReservedPort : Oracle := fun _ _ _ _ =>
  okResp "AddAnyPortMappingResponse" [.mk "NewReservedPort" (some "12345") []]

/-- Test fixture: a router reporting external IP 1.2.3.4. -/
def oracleExternalIp : Oracle := fun _ _ _ _ =>
  okResp "GetExternalIPAddressResponse"
    [.mk "NewExternalIPAddress" (some "1.2.3.4") []]

/-- Test fixture: external IP 1.2.3.4 on the first exchange, reserved
port 12345 on every later one. -/
def oracleIpThenReserved : Oracle := fun k _ _ _ =>
  if k = 0 then
    okResp "GetExternalIPAddressResponse"
      [.mk "NewExternalIPAddress" (some "1.2.3.4") []]
  else
    okResp "AddAnyPortMappingResponse" [.mk "NewReservedPort" (some "12345") []]

theorem portDraw_mem_range (n : Nat) :
    32768 ≤ portDraw n ∧ portDraw n < 65535 := by
  unfold portDraw
  have h := Nat.mod_lt n (show 0 < 32767 by omega)
  omega

theorem addAnyPortLoop_skip_718 (o : Oracle) (rng : Nat → Nat) (g : Gateway)
    (protocol : PortMappingProtocol) (local_addr : SocketAddrV4)
    (lease_duration : Nat) (description : String) :
    ∀ (d k fuel : Nat),
      (∀ i, k ≤ i → i < k + d → ∃ s, fallbackAttempt o rng g protocol
        local_addr lease_duration description i = .error (.ErrorCode 718 s)) →
      addAnyPortLoop o rng g protocol local_addr lease_duration description
          (d + fuel) k
        = addAnyPortLoop o rng g protocol local_addr lease_duration
            description fuel (k + d) := by
  intro d
  induction d with
  | zero => intro k fuel _; simp
  | succ d ih =>
    intro k fuel h
    obtain ⟨s, hs⟩ := h k (Nat.le_refl k) (by omega)
    unfold fallbackAttempt at hs
    have hfuel : (d + 1) + fuel = (d + fuel) + 1 := by omega
    rw [hfuel]
    simp only [addAnyPortLoop, hs]
    have hk : k + (d + 1) = (k + 1) + d := by omega
    rw [hk]
    exact ih (k + 1) fuel (fun i h1 h2 => h i (by omega) (by omega))

/-- C1: in `add_any_port`, when the initial `AddAnyPortMapping` request
returns fault code 401, the allocator falls back to a loop of at most 20
fixed-port `AddPortMapping` attempts, each with a candidate external port
drawn from the range [32768, 65535); a successful attempt returns that
attempt's candidate port, a fault 718 continues to the next attempt with a
new random port (draw `rng k` for the `k`-th transport invocation), and if
all 20 attempts fail with 718 the allocator returns `NoPortsAvailable`
(after exactly 1 + 20 transport invocations). -/
theorem add_any_port_fallback_spec (o : Oracle) (rng : Nat → Nat)
    (g : Gateway) (protocol : PortMappingProtocol)
    (local_addr : SocketAddrV4) (lease_duration : Nat)
    (description : String) (d0 : String)
    (hport : local_addr.port ≠ 0)
    (h401 : perform_request o 0 (gatewayUrl g) addAnyPortMappingHeader
      (add_any_port_mapping_body protocol (portDraw (rng 0)) local_addr
        lease_duration description)
      "AddAnyPortMappingResponse" = .error (.ErrorCode 401 d0)) :
    (∀ k, 32768 ≤ portDraw (rng k) ∧ portDraw (rng k) < 65535) ∧
    ((∀ k, 1 ≤ k → k ≤ 20 → ∃ s, fallbackAttempt o rng g protocol
        local_addr lease_duration description k
        = .error (.ErrorCode 718 s)) →
      add_any_port o rng g protocol local_addr lease_duration description
        = (.error .NoPortsAvailable, 21)) ∧
    (∀ j, 1 ≤ j → j ≤ 20 →
      (∀ k, 1 ≤ k → k < j → ∃ s, fallbackAttempt o rng g protocol
        local_addr lease_duration description k
        = .error (.ErrorCode 718 s)) →
      fallbackAttempt o rng g protocol local_addr lease_duration
        description j = .ok () →
      add_any_port o rng g protocol local_addr lease_duration description
        = (.ok (portDraw (rng j)), j + 1)) := by
  refine ⟨fun k => portDraw_mem_range (rng k), ?_, ?_⟩
  · intro h718
    unfold add_any_port
    rw [if_neg hport]
    simp only [h401]
    have hskip := addAnyPortLoop_skip_718 o rng g protocol local_addr
      lease_duration description 20 1 0
      (fun i h1 h2 => h718 i h1 (by omega))
    simpa using hskip
  · intro j hj1 hj2 hpre hok
    unfold add_any_port
    rw [if_neg hport]
    simp only [h401]
    have h20 : (20 : Nat) = (j - 1) + ((20 - j) + 1) := by omega
    rw [h20]
    have hskip := addAnyPortLoop_skip_718 o rng g protocol local_addr
      lease_duration description (j - 1) 1 ((20 - j) + 1)
      (fun i h1 h2 => hpre i h1 (by omega))
    rw [hskip]
    have hj : 1 + (j - 1) = j := by omega
    rw [hj]
    unfold fallbackAttempt at hok
    simp only [addAnyPortLoop, hok]

theorem add_any_port_fallback_spec_witness :
    add_any_port oracle401then718 rngEx gEx .TCP laEx 0 "test"
      = (.error .NoPortsAvailable, 21) := by
  have h := add_any_port_fallback_spec oracle401then718 rngEx gEx .TCP laEx
    0 "test" "unknown action" (by decide) (by rfl)
  refine h.2.1 ?_
  intro k hk _
  refine ⟨"conflict", ?_⟩
  unfold fallbackAttempt add_port_mapping perform_request oracle401then718
  rw [if_neg (by omega : ¬ k = 0)]
  rfl

/-- C2: in `add_any_port`'s fallback loop, a fault 724 at attempt `j`
triggers exactly one retry of `AddPortMapping` using the caller's internal
port as both internal and external port, at transport index `j + 1` (so
it is not one of the 20 budgeted attempts — it happens even when `j` is
the 20th and last attempt); the sub-attempt maps fault 606 to
`ActionNotAuthorized`, 718 to `ExternalPortInUse`, 725 to
`OnlyPermanentLeasesSupported`, returns the internal port on success and
passes any other error through, and in every case the allocator stops
after exactly `j + 2` transport invocations — the loop is never
re-entered. -/
theorem add_any_port_724_single_retry (o : Oracle) (rng : Nat → Nat)
    (g : Gateway) (protocol : PortMappingProtocol)
    (local_addr : SocketAddrV4) (lease_duration : Nat)
    (description : String) (d0 s724 : String) (j : Nat)
    (hport : local_addr.port ≠ 0)
    (h401 : perform_request o 0 (gatewayUrl g) addAnyPortMappingHeader
      (add_any_port_mapping_body protocol (portDraw (rng 0)) local_addr
        lease_duration description)
      "AddAnyPortMappingResponse" = .error (.ErrorCode 401 d0))
    (hj1 : 1 ≤ j) (hj2 : j ≤ 20)
    (hpre : ∀ k, 1 ≤ k → k < j → ∃ s, fallbackAttempt o rng g protocol
      local_addr lease_duration description k = .error (.ErrorCode 718 s))
    (h724 : fallbackAttempt o rng g protocol local_addr lease_duration
      description j = .error (.ErrorCode 724 s724)) :
    (add_port_mapping o (j + 1) g protocol local_addr.port local_addr
        lease_duration description = .ok () →
      add_any_port o rng g protocol local_addr lease_duration description
        = (.ok local_addr.port, j + 2)) ∧
    (∀ s, add_port_mapping o (j + 1) g protocol local_addr.port local_addr
        lease_duration description = .error (.ErrorCode 606 s) →
      add_any_port o rng g protocol local_addr lease_duration description
        = (.error .ActionNotAuthorized, j + 2)) ∧
    (∀ s, add_port_mapping o (j + 1) g protocol local_addr.port local_addr
        lease_duration description = .error (.ErrorCode 718 s) →
      add_any_port o rng g protocol local_addr lease_duration description
        = (.error .ExternalPortInUse, j + 2)) ∧
    (∀ s, add_port_mapping o (j + 1) g protocol local_addr.port local_addr
        lease_duration description = .error (.ErrorCode 725 s) →
      add_any_port o rng g protocol local_addr lease_duration description
        = (.error .OnlyPermanentLeasesSupported, j + 2)) ∧
    (∀ e, (∀ s, e ≠ .ErrorCode 606 s ∧ e ≠ .ErrorCode 718 s ∧
        e ≠ .ErrorCode 725 s) →
      add_port_mapping o (j + 1) g protocol local_addr.port local_addr
        lease_duration description = .error e →
      add_any_port o rng g protocol local_addr lease_duration description
        = (.error (.RequestError e), j + 2)) := by
  have hmain : add_any_port o rng g protocol local_addr lease_duration
      description
      = (match add_port_mapping o (j + 1) g protocol local_addr.port
          local_addr lease_duration description with
        | .ok () => (.ok local_addr.port, j + 2)
        | .error (.ErrorCode 606 _) => (.error .ActionNotAuthorized, j + 2)
        | .error (.ErrorCode 718 _) => (.error .ExternalPortInUse, j + 2)
        | .error (.ErrorCode 725 _) =>
          (.error .OnlyPermanentLeasesSupported, j + 2)
        | .error e => (.error (.RequestError e), j + 2)) := by
    unfold add_any_port
    rw [if_neg hport]
    simp only [h401]
    have h20 : (20 : Nat) = (j - 1) + ((20 - j) + 1) := by omega
    rw [h20]
    rw [addAnyPortLoop_skip_718 o rng g protocol local_addr lease_duration
      description (j - 1) 1 ((20 - j) + 1)
      (fun i h1 h2 => hpre i h1 (by omega))]
    rw [(by omega : 1 + (j - 1) = j)]
    unfold fallbackAttempt at h724
    simp only [addAnyPortLoop, h724]
  refine ⟨?_, ?_, ?_, ?_, ?_⟩
  · intro hsub; rw [hmain, hsub]
  · intro s hsub; rw [hmain, hsub]
  · intro s hsub; rw [hmain, hsub]
  · intro s hsub; rw [hmain, hsub]
  · intro e hne hsub
    rw [hmain, hsub]
    cases e with
    | ErrorCode c s =>
      have h6 := (hne s).1
      have h8 := (hne s).2.1
      have h5 := (hne s).2.2
      split
      all_goals simp_all
    | InvalidResponse t => rfl
    | TransportError m => rfl

theorem add_any_port_724_single_retry_witness :
    add_any_port oracle401then724ok rngEx gEx .TCP laEx 0 "test"
      = (.ok 1000, 3) := by
  have h := add_any_port_724_single_retry oracle401then724ok rngEx gEx .TCP
    laEx 0 "test" "unknown action" "same port required" 1 (by decide)
    (by rfl) (by decide) (by decide)
    (fun k h1 h2 => absurd h2 (by omega)) (by rfl)
  exact h.1 (by rfl)

/-- C3: in `add_any_port`, when the initial `AddAnyPortMapping` request
succeeds, the returned port is the `NewReservedPort` value read from the
response, and a missing or non-u16-parseable `NewReservedPort` yields
`InvalidResponse` carrying the raw response text; a fault 605 yields
`DescriptionTooLong`, 606 `ActionNotAuthorized`, 728 `NoPortsAvailable`,
and any other fault (code outside 401/605/606/728) or transport-level
error passes through as a generic request error. -/
theorem add_any_port_initial_classification (o : Oracle) (rng : Nat → Nat)
    (g : Gateway) (protocol : PortMappingProtocol)
    (local_addr : SocketAddrV4) (lease_duration : Nat)
    (description : String) (r : Except RequestError (String × Element))
    (hport : local_addr.port ≠ 0)
    (hr : perform_request o 0 (gatewayUrl g) addAnyPortMappingHeader
      (add_any_port_mapping_body protocol (portDraw (rng 0)) local_addr
        lease_duration description)
      "AddAnyPortMappingResponse" = r) :
    (∀ text response port, r = .ok (text, response) →
      ((response.getChild "NewReservedPort").bind
        (fun e => e.text)).bind (fun t => parseU16 t) = some port →
      add_any_port o rng g protocol local_addr lease_duration description
        = (.ok port, 1)) ∧
    (∀ text response, r = .ok (text, response) →
      ((response.getChild "NewReservedPort").bind
        (fun e => e.text)).bind (fun t => parseU16 t) = none →
      add_any_port o rng g protocol local_addr lease_duration description
        = (.error (.RequestError (.InvalidResponse text)), 1)) ∧
    (∀ s, r = .error (.ErrorCode 605 s) →
      add_any_port o rng g protocol local_addr lease_duration description
        = (.error .DescriptionTooLong, 1)) ∧
    (∀ s, r = .error (.ErrorCode 606 s) →
      add_any_port o rng g protocol local_addr lease_duration description
        = (.error .ActionNotAuthorized, 1)) ∧
    (∀ s, r = .error (.ErrorCode 728 s) →
      add_any_port o rng g protocol local_addr lease_duration description
        = (.error .NoPortsAvailable, 1)) ∧
    (∀ c s, c ≠ 401 → c ≠ 605 → c ≠ 606 → c ≠ 728 →
      r = .error (.ErrorCode c s) →
      add_any_port o rng g protocol local_addr lease_duration description
        = (.error (.RequestError (.ErrorCode c s)), 1)) ∧
    (∀ m, r = .error (.TransportError m) →
      add_any_port o rng g protocol local_addr lease_duration description
        = (.error (.RequestError (.TransportError m)), 1)) ∧
    (∀ t, r = .error (.InvalidResponse t) →
      add_any_port o rng g protocol local_addr lease_duration description
        = (.error (.RequestError (.InvalidResponse t)), 1)) := by
  refine ⟨?_, ?_, ?_, ?_, ?_, ?_, ?_, ?_⟩
  · intro text response port hre hchain
    subst hre
    unfold add_any_port
    rw [if_neg hport]
    simp only [hr, hchain]
  · intro text response hre hchain
    subst hre
    unfold add_any_port
    rw [if_neg hport]
    simp only [hr, hchain]
  · intro s hre
    subst hre
    unfold add_any_port
    rw [if_neg hport]
    simp only [hr]
  · intro s hre
    subst hre
    unfold add_any_port
    rw [if_neg hport]
    simp only [hr]
  · intro s hre
    subst hre
    unfold add_any_port
    rw [if_neg hport]
    simp only [hr]
  · intro c s h1 h5 h6 h8 hre
    subst hre
    unfold add_any_port
    rw [if_neg hport]
    simp only [hr]
    split
    all_goals simp_all
  · intro m hre
    subst hre
    unfold add_any_port
    rw [if_neg hport]
    simp only [hr]
  · intro t hre
    subst hre
    unfold add_any_port
    rw [if_neg hport]
    simp only [hr]

theorem add_any_port_initial_classification_witness :
    add_any_port oracleReservedPort rngEx gEx .TCP laEx 0 "test"
      = (.ok 12345, 1) := by
  have h := add_any_port_initial_classification oracleReservedPort rngEx
    gEx .TCP laEx 0 "test" _ (by decide) rfl
  exact h.1 "ok-text"
    (.mk "AddAnyPortMappingResponse" none
      [.mk "NewReservedPort" (some "12345") []]) 12345 rfl (by rfl)

/-- C4: for every response text (with its XML-parse outcome) and expected
success-element name, `parse_response` behaves exactly as the spec's
six-step algorithm `parse_response_spec_model`: the success element is
checked before any fault parsing (a found success element is returned
paired with the original text even when a fault is also present), every
structural anomaly — unparseable text, missing `Body`, missing
`Body/Fault/detail/UPnPError` path, missing `errorCode` or
`errorDescription` (element or text), or `errorCode` not parseable as an
unsigned 16-bit integer — yields `InvalidResponse` carrying the original
unmodified text, and a well-formed fault yields
`ErrorCode(code, description)`. -/
theorem parse_response_matches_spec_model (text : String)
    (parsed : Option Element) (ok : String) :
    parse_response text parsed ok = parse_response_spec_model text parsed ok := by
  unfold parse_response parse_response_spec_model
  cases parsed with
  | none => rfl
  | some xml =>
    cases hb : xml.getChild "Body" with
    | none => simp [hb]
    | some body =>
      cases hok : body.getChild ok with
      | some s => simp [hb, hok]
      | none =>
        cases hf : ((body.getChild "Fault").bind
            (fun e => e.getChild "detail")).bind
            (fun e => e.getChild "UPnPError") with
        | none => simp [hb, hok, hf]
        | some u =>
          cases hc : u.getChild "errorCode" with
          | none => simp [hb, hok, hf, hc]
          | some e =>
            cases hd : u.getChild "errorDescription" with
            | none =>
              cases het : e.text with
              | none => simp [hb, hok, hf, hc, hd, het]
              | some et => simp [hb, hok, hf, hc, hd, het]
            | some d =>
              cases het : e.text with
              | none => simp [hb, hok, hf, hc, hd, het]
              | some et =>
                cases hdt : d.text with
                | none => simp [hb, hok, hf, hc, hd, het, hdt]
                | some dt => simp [hb, hok, hf, hc, hd, het, hdt]

set_option maxRecDepth 4096 in
/-- C5: evaluation of the envelope builder at a description needing XML
escaping.  The claim says such a description is escaped into the rendered
envelope; the builder (`format!` in `add_port_mapping` /
`add_any_port`) interpolates the description verbatim instead: for the
description `a&b` the rendered envelope differs from the escaped rendering
the spec describes and contains the raw, un-escaped bytes
`<NewPortMappingDescription>a&b</NewPortMappingDescription>` — which is
not well-formed XML, so a wire-compliant round trip is impossible. -/
theorem add_port_mapping_body_not_escaped :
    needsXmlEscape "a&b" = true ∧
    add_port_mapping_body .TCP 41000 ⟨⟨192, 168, 0, 1⟩, 2000⟩ 86400 "a&b"
      ≠ add_port_mapping_body_escaped .TCP 41000 ⟨⟨192, 168, 0, 1⟩, 2000⟩
          86400 "a&b" ∧
    "<NewPortMappingDescription>a&b</NewPortMappingDescription>".data
      <:+: (add_port_mapping_body .TCP 41000 ⟨⟨192, 168, 0, 1⟩, 2000⟩
          86400 "a&b").data :=
  ⟨by decide, by decide, by decide⟩

/-- C6: `get_any_address` calls `get_external_ip` and then the any-port
allocator over the shifted oracle; on success of both it returns the
single socket address combining the external IP with the allocated port.
An `ActionNotAuthorized` failure of the Get-External-IP step is returned
at once (mapped to the `AddAnyPortError` type) without the allocator
performing any transport invocation, so it is propagated distinctly from
the allocator's own errors; a request-level failure of the IP step is
likewise passed through, and an allocator failure is returned as-is. -/
theorem get_any_address_composition (o : Oracle) (rng : Nat → Nat)
    (g : Gateway) (protocol : PortMappingProtocol)
    (local_addr : SocketAddrV4) (lease_duration : Nat)
    (description : String) :
    (∀ ip n port m, get_external_ip o g = (.ok ip, n) →
      add_any_port (shiftOracle o n) rng g protocol local_addr
        lease_duration description = (.ok port, m) →
      get_any_address o rng g protocol local_addr lease_duration
        description = (.ok ⟨ip, port⟩, n + m)) ∧
    (∀ n, get_external_ip o g = (.error .ActionNotAuthorized, n) →
      get_any_address o rng g protocol local_addr lease_duration
        description = (.error .ActionNotAuthorized, n)) ∧
    (∀ e n, get_external_ip o g = (.error (.RequestError e), n) →
      get_any_address o rng g protocol local_addr lease_duration
        description = (.error (.RequestError e), n)) ∧
    (∀ ip n e m, get_external_ip o g = (.ok ip, n) →
      add_any_port (shiftOracle o n) rng g protocol local_addr
        lease_duration description = (.error e, m) →
      get_any_address o rng g protocol local_addr lease_duration
        description = (.error e, n + m)) := by
  refine ⟨?_, ?_, ?_, ?_⟩
  · intro ip n port m hip halloc
    unfold get_any_address
    rw [hip]
    simp only [halloc]
  · intro n hip
    unfold get_any_address
    rw [hip]
  · intro e n hip
    unfold get_any_address
    rw [hip]
  · intro ip n e m hip halloc
    unfold get_any_address
    rw [hip]
    simp only [halloc]

theorem get_any_address_composition_witness :
    get_any_address oracleIpThenReserved rngEx gEx .TCP laEx 0 "test"
      = (.ok ⟨⟨1, 2, 3, 4⟩, 12345⟩, 2) := by
  have h := get_any_address_composition oracleIpThenReserved rngEx gEx .TCP
    laEx 0 "test"
  exact h.1 ⟨1, 2, 3, 4⟩ 1 12345 1 (by rfl) (by rfl)

/-- C7 counterexample: `add_port` with internal port 0 does not always
return `InternalPortZeroInvalid` — when the external port is also 0 the
external-port check fires first and the call returns
`ExternalPortZeroInvalid` (still with zero transport invocations). -/
theorem add_port_internal_zero_counterexample :
    laZeroEx.port = 0 ∧
    add_port oracleNever gEx .TCP 0 laZeroEx 0 "test"
      = (.error .ExternalPortZeroInvalid, 0) ∧
    (add_port oracleNever gEx .TCP 0 laZeroEx 0 "test").1
      ≠ .error AddPortError.InternalPortZeroInvalid :=
  ⟨rfl, rfl, fun h => AddPortError.noConfusion (Except.error.inj h)⟩

/-- C7 (amended): `add_port` with external port 0 returns
`ExternalPortZeroInvalid`; `add_port` with a non-zero external port and
internal port 0 returns `InternalPortZeroInvalid` (the external-port check
takes precedence when both are zero); `add_any_port` with internal port 0
returns `InternalPortZeroInvalid`; in every case with zero transport
invocations. -/
theorem add_port_zero_port_validation (o : Oracle) (rng : Nat → Nat)
    (g : Gateway) (protocol : PortMappingProtocol) (external_port : Nat)
    (local_addr : SocketAddrV4) (lease_duration : Nat)
    (description : String) :
    (external_port = 0 →
      add_port o g protocol external_port local_addr lease_duration
        description = (.error .ExternalPortZeroInvalid, 0)) ∧
    (external_port ≠ 0 → local_addr.port = 0 →
      add_port o g protocol external_port local_addr lease_duration
        description = (.error .InternalPortZeroInvalid, 0)) ∧
    (local_addr.port = 0 →
      add_any_port o rng g protocol local_addr lease_duration description
        = (.error .InternalPortZeroInvalid, 0)) := by
  refine ⟨?_, ?_, ?_⟩
  · intro h
    unfold add_port
    rw [if_pos h]
  · intro hx hi
    unfold add_port
    rw [if_neg hx, if_pos hi]
  · intro hi
    unfold add_any_port
    rw [if_pos hi]

theorem add_port_zero_port_validation_witness :
    add_port oracleNever gEx .TCP 0 laEx 0 "test"
      = (.error .ExternalPortZeroInvalid, 0) ∧
    add_port oracleNever gEx .TCP 41000 laZeroEx 0 "test"
      = (.error .InternalPortZeroInvalid, 0) ∧
    add_any_port oracleNever rngEx gEx .TCP laZeroEx 0 "test"
      = (.error .InternalPortZeroInvalid, 0) :=
  ⟨(add_port_zero_port_validation oracleNever rngEx gEx .TCP 0 laEx 0
      "test").1 rfl,
   (add_port_zero_port_validation oracleNever rngEx gEx .TCP 41000 laZeroEx
      0 "test").2.1 (by decide) rfl,
   (add_port_zero_port_validation oracleNever rngEx gEx .TCP 41000 laZeroEx
      0 "test").2.2 rfl⟩

/-- C8: `add_port` (with locally valid ports) classifies faults by the
fixed closed table 605 ↦ `DescriptionTooLong`, 606 ↦
`ActionNotAuthorized`, 718 ↦ `PortInUse`, 724 ↦ `SamePortValuesRequired`,
725 ↦ `OnlyPermanentLeasesSupported`, any other fault or transport-level
error passing through as a generic request error; `remove_port` succeeds
on any parsed success element regardless of its content, maps 606 to
`ActionNotAuthorized` and 714 to `NoSuchPortMapping`, and passes all
other errors through. -/
theorem add_port_remove_port_fault_tables (o o2 : Oracle) (g g2 : Gateway)
    (protocol protocol2 : PortMappingProtocol)
    (external_port external_port2 : Nat) (local_addr : SocketAddrV4)
    (lease_duration : Nat) (description : String)
    (r : Except RequestError Unit)
    (r2 : Except RequestError (String × Element))
    (hext : external_port ≠ 0) (hint : local_addr.port ≠ 0)
    (hr : add_port_mapping o 0 g protocol external_port local_addr
      lease_duration description = r)
    (hr2 : perform_request o2 0 (gatewayUrl g2) deletePortMappingHeader
      (delete_port_mapping_body protocol2 external_port2)
      "DeletePortMappingResponse" = r2) :
    (r = .ok () →
      add_port o g protocol external_port local_addr lease_duration
        description = (.ok (), 1)) ∧
    (∀ s, r = .error (.ErrorCode 605 s) →
      add_port o g protocol external_port local_addr lease_duration
        description = (.error .DescriptionTooLong, 1)) ∧
    (∀ s, r = .error (.ErrorCode 606 s) →
      add_port o g protocol external_port local_addr lease_duration
        description = (.error .ActionNotAuthorized, 1)) ∧
    (∀ s, r = .error (.ErrorCode 718 s) →
      add_port o g protocol external_port local_addr lease_duration
        description = (.error .PortInUse, 1)) ∧
    (∀ s, r = .error (.ErrorCode 724 s) →
      add_port o g protocol external_port local_addr lease_duration
        description = (.error .SamePortValuesRequired, 1)) ∧
    (∀ s, r = .error (.ErrorCode 725 s) →
      add_port o g protocol external_port local_addr lease_duration
        description = (.error .OnlyPermanentLeasesSupported, 1)) ∧
    (∀ c s, c ≠ 605 → c ≠ 606 → c ≠ 718 → c ≠ 724 → c ≠ 725 →
      r = .error (.ErrorCode c s) →
      add_port o g protocol external_port local_addr lease_duration
        description = (.error (.RequestError (.ErrorCode c s)), 1)) ∧
    (∀ m, r = .error (.TransportError m) →
      add_port o g protocol external_port local_addr lease_duration
        description = (.error (.RequestError (.TransportError m)), 1)) ∧
    (∀ t, r = .error (.InvalidResponse t) →
      add_port o g protocol external_port local_addr lease_duration
        description = (.error (.RequestError (.InvalidResponse t)), 1)) ∧
    (∀ text elem, r2 = .ok (text, elem) →
      remove_port o2 g2 protocol2 external_port2 = (.ok (), 1)) ∧
    (∀ s, r2 = .error (.ErrorCode 606 s) →
      remove_port o2 g2 protocol2 external_port2
        = (.error .ActionNotAuthorized, 1)) ∧
    (∀ s, r2 = .error (.ErrorCode 714 s) →
      remove_port o2 g2 protocol2 external_port2
        = (.error .NoSuchPortMapping, 1)) ∧
    (∀ c s, c ≠ 606 → c ≠ 714 → r2 = .error (.ErrorCode c s) →
      remove_port o2 g2 protocol2 external_port2
        = (.error (.RequestError (.ErrorCode c s)), 1)) ∧
    (∀ m, r2 = .error (.TransportError m) →
      remove_port o2 g2 protocol2 external_port2
        = (.error (.RequestError (.TransportError m)), 1)) ∧
    (∀ t, r2 = .error (.InvalidResponse t) →
      remove_port o2 g2 protocol2 external_port2
        = (.error (.RequestError (.InvalidResponse t)), 1)) := by
  refine ⟨?_, ?_, ?_, ?_, ?_, ?_, ?_, ?_, ?_, ?_, ?_, ?_, ?_, ?_, ?_⟩
  · intro hre; subst hre
    unfold add_port; rw [if_neg hext, if_neg hint]; simp only [hr]
  · intro s hre; subst hre
    unfold add_port; rw [if_neg hext, if_neg hint]; simp only [hr]
  · intro s hre; subst hre
    unfold add_port; rw [if_neg hext, if_neg hint]; simp only [hr]
  · intro s hre; subst hre
    unfold add_port; rw [if_neg hext, if_neg hint]; simp only [hr]
  · intro s hre; subst hre
    unfold add_port; rw [if_neg hext, if_neg hint]; simp only [hr]
  · intro s hre; subst hre
    unfold add_port; rw [if_neg hext, if_neg hint]; simp only [hr]
  · intro c s h5 h6 h8 h4 h25 hre; subst hre
    unfold add_port; rw [if_neg hext, if_neg hint]; simp only [hr]
    split
    all_goals simp_all
  · intro m hre; subst hre
    unfold add_port; rw [if_neg hext, if_neg hint]; simp only [hr]
  · intro t hre; subst hre
    unfold add_port; rw [if_neg hext, if_neg hint]; simp only [hr]
  · intro text elem hre; subst hre
    unfold remove_port; simp only [hr2]
  · intro s hre; subst hre
    unfold remove_port; simp only [hr2]
  · intro s hre; subst hre
    unfold remove_port; simp only [hr2]
  · intro c s h6 h14 hre; subst hre
    unfold remove_port; simp only [hr2]
    split
    all_goals simp_all
  · intro m hre; subst hre
    unfold remove_port; simp only [hr2]
  · intro t hre; subst hre
    unfold remove_port; simp only [hr2]

theorem add_port_remove_port_fault_tables_witness :
    add_port (oracleFault 605) gEx .TCP 41000 laEx 0 "test"
      = (.error .DescriptionTooLong, 1) ∧
    remove_port (oracleFault 714) gEx .UDP 41000
      = (.error .NoSuchPortMapping, 1) := by
  have h := add_port_remove_port_fault_tables (oracleFault 605)
    (oracleFault 714) gEx gEx .TCP .UDP 41000 41000 laEx 0 "test" _ _
    (by decide) (by decide) rfl rfl
  exact ⟨h.2.1 "err" rfl, h.2.2.2.2.2.2.2.2.2.2.2.1 "err" rfl⟩

/-- C9: `get_external_ip_async` returns the IPv4 address parsed from the
`NewExternalIPAddress` text child of the success element; when that child
is absent, has no text, or its text does not parse as an IPv4 address
(the option chain yields `none`), it returns `InvalidResponse` carrying
the raw response text; a fault with code 606 returns
`ActionNotAuthorized`; every other fault and every transport-level error
passes through unchanged. -/
theorem get_external_ip_classification (o : Oracle) (g : Gateway)
    (r : Except RequestError (String × Element))
    (hr : perform_request o 0 (gatewayUrl g) getExternalIpHeader
      getExternalIpBody "GetExternalIPAddressResponse" = r) :
    (∀ text response ip, r = .ok (text, response) →
      ((response.getChild "NewExternalIPAddress").bind
        (fun e => e.text)).bind (fun t => parseIpv4 t) = some ip →
      get_external_ip_async o g = (.ok ip, 1)) ∧
    (∀ text response, r = .ok (text, response) →
      ((response.getChild "NewExternalIPAddress").bind
        (fun e => e.text)).bind (fun t => parseIpv4 t) = none →
      get_external_ip_async o g
        = (.error (.RequestError (.InvalidResponse text)), 1)) ∧
    (∀ s, r = .error (.ErrorCode 606 s) →
      get_external_ip_async o g = (.error .ActionNotAuthorized, 1)) ∧
    (∀ c s, c ≠ 606 → r = .error (.ErrorCode c s) →
      get_external_ip_async o g
        = (.error (.RequestError (.ErrorCode c s)), 1)) ∧
    (∀ m, r = .error (.TransportError m) →
      get_external_ip_async o g
        = (.error (.RequestError (.TransportError m)), 1)) ∧
    (∀ t, r = .error (.InvalidResponse t) →
      get_external_ip_async o g
        = (.error (.RequestError (.InvalidResponse t)), 1)) := by
  refine ⟨?_, ?_, ?_, ?_, ?_, ?_⟩
  · intro text response ip hre hchain
    subst hre
    unfold get_external_ip_async
    simp only [hr, hchain]
  · intro text response hre hchain
    subst hre
    unfold get_external_ip_async
    simp only [hr, hchain]
  · intro s hre; subst hre
    unfold get_external_ip_async
    simp only [hr]
  · intro c s h6 hre; subst hre
    unfold get_external_ip_async
    simp only [hr]
    split
    all_goals simp_all
  · intro m hre; subst hre
    unfold get_external_ip_async
    simp only [hr]
  · intro t hre; subst hre
    unfold get_external_ip_async
    simp only [hr]

theorem get_external_ip_classification_witness :
    get_external_ip_async oracleExternalIp gEx = (.ok ⟨1, 2, 3, 4⟩, 1) := by
  have h := get_external_ip_classification oracleExternalIp gEx _ rfl
  exact h.1 "ok-text"
    (.mk "GetExternalIPAddressResponse" none
      [.mk "NewExternalIPAddress" (some "1.2.3.4") []]) ⟨1, 2, 3, 4⟩ rfl
    (by rfl)

theorem get_external_ip_always_one_call (o : Oracle) (g : Gateway) :
    (get_external_ip o g).2 = 1 := by
  unfold get_external_ip get_external_ip_async
  split
  · split
    all_goals rfl
  · rfl
  · rfl

/-- C10 (implicit): `get_any_address` called with an internal port of 0
still performs the full Get-External-IP exchange first — exactly one
transport invocation happens no matter what the router answers — and only
afterwards fails with the allocator's `InternalPortZeroInvalid` when the
IP step succeeded; `add_any_port` called directly with internal port 0
fails with zero transport invocations.  The port-zero validation is not
hoisted into the composition. -/
theorem get_any_address_internal_port_zero (o : Oracle) (rng : Nat → Nat)
    (g : Gateway) (protocol : PortMappingProtocol) (ip : Ipv4)
    (lease_duration : Nat) (description : String) :
    (get_any_address o rng g protocol ⟨ip, 0⟩ lease_duration
      description).2 = 1 ∧
    (∀ addr, get_external_ip o g = (.ok addr, 1) →
      get_any_address o rng g protocol ⟨ip, 0⟩ lease_duration description
        = (.error .InternalPortZeroInvalid, 1)) ∧
    add_any_port o rng g protocol ⟨ip, 0⟩ lease_duration description
      = (.error .InternalPortZeroInvalid, 0) := by
  have hone := get_external_ip_always_one_call o g
  have halloc : ∀ o' : Oracle,
      add_any_port o' rng g protocol ⟨ip, 0⟩ lease_duration description
        = (.error .InternalPortZeroInvalid, 0) := by
    intro o'
    unfold add_any_port
    rw [if_pos rfl]
  refine ⟨?_, ?_, halloc o⟩
  · unfold get_any_address
    rcases hge : get_external_ip o g with ⟨res, n⟩
    rw [hge] at hone
    simp only at hone
    cases res with
    | error e =>
      cases e with
      | ActionNotAuthorized => simp [hge, hone]
      | RequestError e' => simp [hge, hone]
    | ok addr =>
      simp only [hge, halloc (shiftOracle o n)]
      simpa using hone
  · intro addr hge
    unfold get_any_address
    simp only [hge, halloc (shiftOracle o 1)]

theorem get_any_address_internal_port_zero_witness :
    get_any_address oracleIpThenReserved rngEx gEx .TCP ⟨⟨10, 0, 0, 2⟩, 0⟩
      0 "test" = (.error .InternalPortZeroInvalid, 1) := by
  have h := get_any_address_internal_port_zero oracleIpThenReserved rngEx
    gEx .TCP ⟨10, 0, 0, 2⟩ 0 "test"
  exact h.2.1 ⟨1, 2, 3, 4⟩ (by rfl)
